import Mathlib

/-
Verification of the investment-metrics calculator and report schema of the
property-investment-report application.

The calculator lives in the client page (`src/app/page.jsx`): `mapFromSchema`
normalizes the upstream schema-shaped report, `withDefaults` fills defaults,
and the arithmetic prelude of the `Report` component derives the metrics.
Numbers are modelled as rationals; the JavaScript divisions that can hit a
zero denominator are modelled with an explicit value type `JsVal` carrying
the IEEE-754 special values NaN and plus or minus infinity, so that the
code's behaviour on zero denominators is represented faithfully.
-/

namespace PropertyReport

/-- Result of a JavaScript floating-point operation: either a finite value
(modelled as a rational) or one of the IEEE-754 special values produced by
division by zero. -/
inductive JsVal where
  | num (q : ℚ)
  | nan
  | posInf
  | negInf
deriving DecidableEq, Repr

/-- JavaScript division `a / b` of finite operands: finite quotient when the
divisor is nonzero, otherwise the IEEE-754 special value determined by the
sign of the dividend. -/
def jsDiv (a b : ℚ) : JsVal :=
  if b ≠ 0 then .num (a / b)
  else if 0 < a then .posInf
  else if a < 0 then .negInf
  else .nan

/-- JavaScript multiplication of a possibly non-finite value by a finite
constant. -/
def JsVal.mulC (v : JsVal) (c : ℚ) : JsVal :=
  match v with
  | .num q => .num (q * c)
  | .nan => .nan
  | .posInf => if 0 < c then .posInf else if c < 0 then .negInf else .nan
  | .negInf => if 0 < c then .negInf else if c < 0 then .posInf else .nan

/-- JavaScript subtraction `a - v` of a finite value and a possibly
non-finite value. -/
def jsSubQV (a : ℚ) (v : JsVal) : JsVal :=
  match v with
  | .num q => .num (a - q)
  | .nan => .nan
  | .posInf => .negInf
  | .negInf => .posInf

/-- JavaScript division `a / v` of a finite dividend by a possibly
non-finite divisor: a finite value divided by an infinity is zero. -/
def jsDivQV (a : ℚ) (v : JsVal) : JsVal :=
  match v with
  | .num q => jsDiv a q
  | .nan => .nan
  | .posInf => .num 0
  | .negInf => .num 0

/-- Holds when a value is finite and within `eps` of `target`; never holds
for a non-finite value. -/
def JsVal.within (v : JsVal) (target eps : ℚ) : Prop :=
  match v with
  | .num q => target - eps ≤ q ∧ q ≤ target + eps
  | _ => False

/-- One rental unit as the calculator stores it: `{ name, rent }` where
`rent` is the monthly rent. -/
structure RentalUnit where
  name : String
  rent : ℚ
deriving DecidableEq, Repr

/-- One mapped rent comparable as built by `mapFromSchema`:
`{ label, rent, beds, dist, condition }`. -/
structure RentComp where
  label : String
  rent : ℚ
  beds : String
  dist : ℚ
  condition : String
deriving DecidableEq, Repr

/-- The `financing` sub-object after defaulting: all three fields present. -/
structure FinancingTerms where
  downPct : ℚ
  rateAnnual : ℚ
  termMonths : ℕ
deriving DecidableEq, Repr

/-- The `financing` sub-object as `withDefaults` may receive it: each field
individually absent (JavaScript `undefined` / `null`). -/
structure RawFinancing where
  downPct : Option ℚ
  rateAnnual : Option ℚ
  termMonths : Option ℕ
deriving DecidableEq, Repr

/-- The object `withDefaults` receives: every field may be nullish, the
unit list may be missing or empty, and the whole `financing` object may be
absent. -/
structure RawInput where
  address : Option String
  purchasePrice : Option ℚ
  closingPct : Option ℚ
  pointsOnLoanPctOfPrice : Option ℚ
  vacancyRate : Option ℚ
  maintPctOfGrossRent : Option ℚ
  mgmtPctOfEGI : Option ℚ
  insuranceAnnual : Option ℚ
  taxesAnnual : Option ℚ
  otherAnnual : Option ℚ
  hoaAnnual : Option ℚ
  utilsAnnualLL : Option ℚ
  units : Option (List RentalUnit)
  financing : Option RawFinancing
  comps : Option (List RentComp)
deriving DecidableEq, Repr

/-- The fully defaulted object produced by `withDefaults` and consumed by
the metric computation. -/
structure Inputs where
  address : String
  purchasePrice : ℚ
  closingPct : ℚ
  pointsOnLoanPctOfPrice : ℚ
  vacancyRate : ℚ
  maintPctOfGrossRent : ℚ
  mgmtPctOfEGI : ℚ
  insuranceAnnual : ℚ
  taxesAnnual : ℚ
  otherAnnual : ℚ
  hoaAnnual : ℚ
  utilsAnnualLL : ℚ
  units : List RentalUnit
  financing : FinancingTerms
  comps : List RentComp
deriving DecidableEq, Repr

/-- JavaScript `x.address || ""`: the empty string is falsy, so a missing or
empty address becomes the empty string. -/
def jsOrEmptyStr (a : Option String) : String :=
  match a with
  | some s => if s = "" then "" else s
  | none => ""

/-- JavaScript `u.rent || 0`: over the rationals only `0` itself is falsy,
so this is the identity on the modelled domain. -/
def jsOr0 (q : ℚ) : ℚ :=
  if q = 0 then 0 else q

/-- The synthetic unit the code substitutes for a missing or empty unit
list: `{ name: "Unit A", rent: 0 }`. -/
def defaultUnit : RentalUnit := { name := "Unit A", rent := 0 }

/-- `withDefaults` from `src/app/page.jsx`: fills every nullish field with
its documented default and substitutes the synthetic unit list when the
unit list is missing or empty. -/
def withDefaults (x : RawInput) : Inputs :=
  { address := jsOrEmptyStr x.address
    purchasePrice := x.purchasePrice.getD 0
    closingPct := x.closingPct.getD 0.03
    pointsOnLoanPctOfPrice := x.pointsOnLoanPctOfPrice.getD 0.0075
    vacancyRate := x.vacancyRate.getD 0.05
    maintPctOfGrossRent := x.maintPctOfGrossRent.getD 0.08
    mgmtPctOfEGI := x.mgmtPctOfEGI.getD 0.08
    insuranceAnnual := x.insuranceAnnual.getD 0
    taxesAnnual := x.taxesAnnual.getD 0
    otherAnnual := x.otherAnnual.getD 0
    hoaAnnual := x.hoaAnnual.getD 0
    utilsAnnualLL := x.utilsAnnualLL.getD 0
    units :=
      match x.units with
      | some l => if l = [] then [defaultUnit] else l
      | none => [defaultUnit]
    financing :=
      { downPct := (x.financing.bind (fun f => f.downPct)).getD 0.25
        rateAnnual := (x.financing.bind (fun f => f.rateAnnual)).getD 0.077
        termMonths := (x.financing.bind (fun f => f.termMonths)).getD 360 }
    comps := x.comps.getD [] }

/-- Re-embeds a fully defaulted object into the shape `withDefaults`
accepts, every field present, as happens when the defaulted object flows
through the pipeline again. -/
def Inputs.toRaw (d : Inputs) : RawInput :=
  { address := some d.address
    purchasePrice := some d.purchasePrice
    closingPct := some d.closingPct
    pointsOnLoanPctOfPrice := some d.pointsOnLoanPctOfPrice
    vacancyRate := some d.vacancyRate
    maintPctOfGrossRent := some d.maintPctOfGrossRent
    mgmtPctOfEGI := some d.mgmtPctOfEGI
    insuranceAnnual := some d.insuranceAnnual
    taxesAnnual := some d.taxesAnnual
    otherAnnual := some d.otherAnnual
    hoaAnnual := some d.hoaAnnual
    utilsAnnualLL := some d.utilsAnnualLL
    units := some d.units
    financing := some
      { downPct := some d.financing.downPct
        rateAnnual := some d.financing.rateAnnual
        termMonths := some d.financing.termMonths }
    comps := some d.comps }

/-- One unit of the upstream schema-shaped report as `mapFromSchema` reads
it: `modeledRentMonthly` is number-or-null. -/
structure SchemaUnit where
  name : String
  modeledRentMonthly : Option ℚ
deriving DecidableEq, Repr

/-- One rent comparable of the upstream schema-shaped report. -/
structure SchemaComp where
  address : String
  beds : ℚ
  baths : ℚ
  askingRent : Option ℚ
  distanceMiles : Option ℚ
  conditionNote : String
deriving DecidableEq, Repr

/-- The fields of the upstream schema-shaped report that `mapFromSchema`
reads. `Option` models a field that is absent, null, or (through optional
chaining) on a missing parent object; the schema types each of these fields
as number-or-null. -/
structure SchemaReport where
  subjectAddress : Option String
  purchasePrice : Option ℚ
  closingCostPct : Option ℚ
  pointsPct : Option ℚ
  vacancyPct : Option ℚ
  maintenancePctOfGrossRent : Option ℚ
  managementPctOfEGI : Option ℚ
  insuranceDp3Annual : Option ℚ
  taxesAnnual : Option ℚ
  hoaAnnual : Option ℚ
  utilitiesLandlordPaidAnnual : Option ℚ
  otherOpExAnnual : Option ℚ
  units : Option (List SchemaUnit)
  rentComps : Option (List SchemaComp)
  downPaymentPct : Option ℚ
  rateAnnualPct : Option ℚ
  termYears : Option ℕ
deriving DecidableEq, Repr

/-- `pctToDec` from `src/app/page.jsx`: a numeric whole-number percentage
becomes the fraction `n / 100`; anything else becomes the supplied
default. -/
def pctToDec (n : Option ℚ) (dflt : ℚ) : ℚ :=
  match n with
  | some q => q / 100
  | none => dflt

/-- `yearsToMonths` from `src/app/page.jsx`: a numeric term in years
becomes `y * 12` months; anything else becomes `dflt * 12` months. -/
def yearsToMonths (y : Option ℕ) (dflt : ℕ) : ℕ :=
  match y with
  | some q => q * 12
  | none => dflt * 12

/-- `mapFromSchema` from `src/app/page.jsx`: maps the upstream
schema-shaped report onto the calculator's input shape, converting
whole-number percentages to fractions and a term in years to months. -/
def mapFromSchema (x : SchemaReport) : Inputs :=
  { address := x.subjectAddress.getD ""
    purchasePrice := x.purchasePrice.getD 0
    closingPct := x.closingCostPct.getD 0.02
    pointsOnLoanPctOfPrice := x.pointsPct.getD 0
    vacancyRate := pctToDec x.vacancyPct 0.05
    maintPctOfGrossRent := pctToDec x.maintenancePctOfGrossRent 0.08
    mgmtPctOfEGI := pctToDec x.managementPctOfEGI 0.08
    insuranceAnnual := x.insuranceDp3Annual.getD 0
    taxesAnnual := x.taxesAnnual.getD 0
    otherAnnual := x.otherOpExAnnual.getD 0
    hoaAnnual := x.hoaAnnual.getD 0
    utilsAnnualLL := x.utilitiesLandlordPaidAnnual.getD 0
    units :=
      match x.units with
      | some l =>
          if l = [] then [defaultUnit]
          else l.map (fun u => { name := u.name, rent := u.modeledRentMonthly.getD 0 })
      | none => [defaultUnit]
    financing :=
      { downPct := pctToDec x.downPaymentPct 0.25
        rateAnnual := pctToDec x.rateAnnualPct 0.077
        termMonths := yearsToMonths x.termYears 30 }
    comps :=
      match x.rentComps with
      | some l =>
          l.map (fun c =>
            { label := c.address
              rent := c.askingRent.getD 0
              beds := toString c.beds ++ "/" ++ toString c.baths
              dist := c.distanceMiles.getD 0
              condition := c.conditionNote })
      | none => [] }

/-- The derived metrics computed by the `Report` component. Fields whose
JavaScript computation involves a division that can hit a zero denominator
carry a `JsVal`; the rest are plain rationals. -/
structure Metrics where
  monthlyRent : ℚ
  annualGSR : ℚ
  vacancy : ℚ
  egi : ℚ
  maint : ℚ
  mgmt : ℚ
  opEx : ℚ
  noi : ℚ
  closingCost : ℚ
  totalCost : ℚ
  loanAmount : ℚ
  monthlyPI : JsVal
  annualDebtService : JsVal
  dscr : JsVal
  pointsCost : ℚ
  cashInvested : ℚ
  cashFlow : JsVal
  capRate : JsVal
deriving DecidableEq, Repr

/-- The arithmetic prelude of the `Report` component in
`src/app/page.jsx` (lines 143 to 162), computed on an already defaulted
input. -/
def reportMetrics (d : Inputs) : Metrics :=
  let monthlyRent := d.units.foldl (fun s u => s + jsOr0 u.rent) 0
  let annualGSR := monthlyRent * 12
  let vacancy := annualGSR * d.vacancyRate
  let egi := annualGSR - vacancy
  let maint := annualGSR * d.maintPctOfGrossRent
  let mgmt := egi * d.mgmtPctOfEGI
  let opEx := d.taxesAnnual + d.insuranceAnnual + d.hoaAnnual + maint + mgmt
    + d.utilsAnnualLL + d.otherAnnual
  let noi := egi - opEx
  let closingCost := d.purchasePrice * d.closingPct
  let totalCost := d.purchasePrice + closingCost
  let loanAmount := d.purchasePrice * (1 - d.financing.downPct)
  let r := d.financing.rateAnnual / 12
  let n := d.financing.termMonths
  let monthlyPI := jsDiv (loanAmount * r) (1 - ((1 + r) ^ n)⁻¹)
  let annualDebtService := monthlyPI.mulC 12
  let dscr := jsDivQV noi annualDebtService
  let pointsCost := d.purchasePrice * d.pointsOnLoanPctOfPrice
  let cashInvested := d.purchasePrice * d.financing.downPct + closingCost + pointsCost
  let cashFlow := jsSubQV noi annualDebtService
  let capRate := jsDiv noi totalCost
  { monthlyRent := monthlyRent
    annualGSR := annualGSR
    vacancy := vacancy
    egi := egi
    maint := maint
    mgmt := mgmt
    opEx := opEx
    noi := noi
    closingCost := closingCost
    totalCost := totalCost
    loanAmount := loanAmount
    monthlyPI := monthlyPI
    annualDebtService := annualDebtService
    dscr := dscr
    pointsCost := pointsCost
    cashInvested := cashInvested
    cashFlow := cashFlow
    capRate := capRate }

/-- Over the rationals, the truthiness guard in `u.rent || 0` is the
identity: only `0` is falsy and it maps to `0`. -/
@[simp] theorem jsOr0_eq (q : ℚ) : jsOr0 q = q := by
  unfold jsOr0
  split
  · exact (by assumption : q = 0).symm
  · rfl

/-- The rent accumulation of the `Report` component is the sum of the
units' monthly rents. -/
theorem foldl_rent (l : List RentalUnit) (a : ℚ) :
    l.foldl (fun s u => s + jsOr0 u.rent) a = a + (l.map RentalUnit.rent).sum := by
  induction l generalizing a with
  | nil => simp
  | cons u t ih => rw [List.foldl_cons, ih, jsOr0_eq, add_assoc, List.map_cons, List.sum_cons]

/-- A JavaScript division with nonzero divisor is the finite quotient. -/
theorem jsDiv_num (a b : ℚ) (hb : b ≠ 0) : jsDiv a b = .num (a / b) := by
  simp [jsDiv, hb]

@[simp] theorem reportMetrics_monthlyRent (d : Inputs) :
    (reportMetrics d).monthlyRent = d.units.foldl (fun s u => s + jsOr0 u.rent) 0 := rfl

@[simp] theorem reportMetrics_annualGSR (d : Inputs) :
    (reportMetrics d).annualGSR = (reportMetrics d).monthlyRent * 12 := rfl

@[simp] theorem reportMetrics_vacancy (d : Inputs) :
    (reportMetrics d).vacancy = (reportMetrics d).annualGSR * d.vacancyRate := rfl

@[simp] theorem reportMetrics_egi (d : Inputs) :
    (reportMetrics d).egi = (reportMetrics d).annualGSR - (reportMetrics d).vacancy := rfl

@[simp] theorem reportMetrics_maint (d : Inputs) :
    (reportMetrics d).maint = (reportMetrics d).annualGSR * d.maintPctOfGrossRent := rfl

@[simp] theorem reportMetrics_mgmt (d : Inputs) :
    (reportMetrics d).mgmt = (reportMetrics d).egi * d.mgmtPctOfEGI := rfl

@[simp] theorem reportMetrics_opEx (d : Inputs) :
    (reportMetrics d).opEx = d.taxesAnnual + d.insuranceAnnual + d.hoaAnnual
      + (reportMetrics d).maint + (reportMetrics d).mgmt
      + d.utilsAnnualLL + d.otherAnnual := rfl

@[simp] theorem reportMetrics_noi (d : Inputs) :
    (reportMetrics d).noi = (reportMetrics d).egi - (reportMetrics d).opEx := rfl

@[simp] theorem reportMetrics_closingCost (d : Inputs) :
    (reportMetrics d).closingCost = d.purchasePrice * d.closingPct := rfl

@[simp] theorem reportMetrics_totalCost (d : Inputs) :
    (reportMetrics d).totalCost = d.purchasePrice + (reportMetrics d).closingCost := rfl

@[simp] theorem reportMetrics_loanAmount (d : Inputs) :
    (reportMetrics d).loanAmount = d.purchasePrice * (1 - d.financing.downPct) := rfl

@[simp] theorem reportMetrics_monthlyPI (d : Inputs) :
    (reportMetrics d).monthlyPI =
      jsDiv ((reportMetrics d).loanAmount * (d.financing.rateAnnual / 12))
        (1 - ((1 + d.financing.rateAnnual / 12) ^ d.financing.termMonths)⁻¹) := rfl

@[simp] theorem reportMetrics_annualDebtService (d : Inputs) :
    (reportMetrics d).annualDebtService = (reportMetrics d).monthlyPI.mulC 12 := rfl

@[simp] theorem reportMetrics_dscr (d : Inputs) :
    (reportMetrics d).dscr = jsDivQV (reportMetrics d).noi (reportMetrics d).annualDebtService := rfl

@[simp] theorem reportMetrics_pointsCost (d : Inputs) :
    (reportMetrics d).pointsCost = d.purchasePrice * d.pointsOnLoanPctOfPrice := rfl

@[simp] theorem reportMetrics_cashInvested (d : Inputs) :
    (reportMetrics d).cashInvested = d.purchasePrice * d.financing.downPct
      + (reportMetrics d).closingCost + (reportMetrics d).pointsCost := rfl

@[simp] theorem reportMetrics_cashFlow (d : Inputs) :
    (reportMetrics d).cashFlow = jsSubQV (reportMetrics d).noi (reportMetrics d).annualDebtService := rfl

@[simp] theorem reportMetrics_capRate (d : Inputs) :
    (reportMetrics d).capRate = jsDiv (reportMetrics d).noi (reportMetrics d).totalCost := rfl

/-- A raw input with every field absent. -/
def blankRaw : RawInput :=
  { address := none, purchasePrice := none, closingPct := none,
    pointsOnLoanPctOfPrice := none, vacancyRate := none, maintPctOfGrossRent := none,
    mgmtPctOfEGI := none, insuranceAnnual := none, taxesAnnual := none,
    otherAnnual := none, hoaAnnual := none, utilsAnnualLL := none,
    units := none, financing := none, comps := none }

/-- The P4 example input: only `units` and `purchasePrice` given. -/
def p4Raw : RawInput :=
  { blankRaw with
    purchasePrice := some 500000
    units := some [{ name := "Unit A", rent := 2000 }] }

/-- The fully defaulted object the P4 example must produce. -/
def p4Inputs : Inputs :=
  { address := ""
    purchasePrice := 500000
    closingPct := 0.03
    pointsOnLoanPctOfPrice := 0.0075
    vacancyRate := 0.05
    maintPctOfGrossRent := 0.08
    mgmtPctOfEGI := 0.08
    insuranceAnnual := 0
    taxesAnnual := 0
    otherAnnual := 0
    hoaAnnual := 0
    utilsAnnualLL := 0
    units := [{ name := "Unit A", rent := 2000 }]
    financing := { downPct := 0.25, rateAnnual := 0.077, termMonths := 360 }
    comps := [] }

/-- The P6 example input: purchase price 300000, one unit at 1500 a month,
taxes 3000, insurance 1200, financing 25 percent down at 6 percent for 360
months, everything else defaulted. -/
def p6Raw : RawInput :=
  { blankRaw with
    purchasePrice := some 300000
    taxesAnnual := some 3000
    insuranceAnnual := some 1200
    units := some [{ name := "Unit 1", rent := 1500 }]
    financing := some { downPct := some 0.25, rateAnnual := some 0.06, termMonths := some 360 } }

/-- C1: the income pipeline is computed exactly as specified: gross
scheduled rent is twelve times the sum of the units' monthly rents,
effective gross income applies the vacancy factor, operating expenses sum
the seven expense items, and net operating income is their difference,
unclamped (it is negative for the P6 input with taxes raised to 100000);
on the P6 input the gross scheduled rent is 18000 and the effective gross
income is 17100. -/
theorem c1_income_pipeline :
    (∀ d : Inputs,
      (reportMetrics d).annualGSR = 12 * (d.units.map RentalUnit.rent).sum ∧
      (reportMetrics d).egi = (reportMetrics d).annualGSR * (1 - d.vacancyRate) ∧
      (reportMetrics d).opEx = d.taxesAnnual + d.insuranceAnnual + d.hoaAnnual
        + (reportMetrics d).maint + (reportMetrics d).mgmt
        + d.utilsAnnualLL + d.otherAnnual ∧
      (reportMetrics d).noi = (reportMetrics d).egi - (reportMetrics d).opEx) ∧
    (reportMetrics (withDefaults p6Raw)).annualGSR = 18000 ∧
    (reportMetrics (withDefaults p6Raw)).egi = 17100 ∧
    (reportMetrics (withDefaults { p6Raw with taxesAnnual := some 100000 })).noi < 0 := by
  refine ⟨fun d => ⟨?_, ?_, rfl, rfl⟩, ?_, ?_, ?_⟩
  · rw [reportMetrics_annualGSR, reportMetrics_monthlyRent, foldl_rent]
    ring
  · rw [reportMetrics_egi, reportMetrics_vacancy]
    ring
  · simp [withDefaults, p6Raw, blankRaw, foldl_rent]
    norm_num
  · simp [withDefaults, p6Raw, blankRaw, foldl_rent]
    norm_num
  · simp [withDefaults, p6Raw, blankRaw, foldl_rent]
    norm_num

/-- C2: on an input whose only present fields are `units` and
`purchasePrice`, the defaulting step fills exactly the documented
defaults, substitutes the synthetic unit when the unit list is empty, and
the resulting gross scheduled rent for a 2000 a month unit is 24000. -/
theorem c2_default_fill :
    withDefaults p4Raw = p4Inputs ∧
    (withDefaults { p4Raw with units := some [] }).units = [{ name := "Unit A", rent := 0 }] ∧
    (reportMetrics (withDefaults p4Raw)).annualGSR = 24000 := by
  refine ⟨rfl, rfl, ?_⟩
  simp [withDefaults, p4Raw, blankRaw, foldl_rent]
  norm_num

/-- For a positive monthly rate the amortization denominator
`1 - (1 + r) ^ (-n)` is positive, so the payment division is finite. -/
theorem amort_denom_pos (r : ℚ) (hr : 0 < r) (n : ℕ) (hn : n ≠ 0) :
    0 < 1 - ((1 + r) ^ n)⁻¹ := by
  have h1 : 1 < (1 + r) ^ n := one_lt_pow₀ (by linarith) hn
  have h2 : ((1 + r) ^ n)⁻¹ < 1 := inv_lt_one_of_one_lt₀ h1
  linarith

/-- The P6 input with the annual rate overridden to zero. -/
def zeroRateRaw : RawInput :=
  { p6Raw with
    financing := some { downPct := some 0.25, rateAnnual := some 0, termMonths := some 360 } }

/-- C3: at a zero annual rate the code's payment formula divides zero by
zero and yields NaN instead of the straight-line payment
`loanAmount / termMonths` (here 225000 / 360 = 625) required by the
specification. -/
theorem c3_zero_rate_payment_is_nan :
    (reportMetrics (withDefaults zeroRateRaw)).monthlyPI = JsVal.nan ∧
    (reportMetrics (withDefaults zeroRateRaw)).loanAmount
      / ((withDefaults zeroRateRaw).financing.termMonths : ℚ) = 625 ∧
    JsVal.nan ≠ JsVal.num 625 := by
  refine ⟨?_, ?_, by simp⟩
  · rw [reportMetrics_monthlyPI, reportMetrics_loanAmount]
    norm_num [withDefaults, zeroRateRaw, p6Raw, blankRaw, jsDiv]
  · norm_num [withDefaults, zeroRateRaw, p6Raw, blankRaw]

/-- The P6 input with the down payment overridden to 100 percent, making
the loan amount and hence the annual debt service zero. -/
def allCashRaw : RawInput :=
  { p6Raw with
    financing := some { downPct := some 1, rateAnnual := some 0.06, termMonths := some 360 } }

/-- C4: with a zero loan amount the annual debt service is zero and the
code divides the positive net operating income by it anyway, producing
Infinity rather than any sentinel value. -/
theorem c4_dscr_is_infinity :
    (reportMetrics (withDefaults allCashRaw)).annualDebtService = JsVal.num 0 ∧
    (reportMetrics (withDefaults allCashRaw)).noi = 10092 ∧
    (reportMetrics (withDefaults allCashRaw)).dscr = JsVal.posInf := by
  have hD : (0:ℚ) < 1 - ((1 + (0.06:ℚ) / 12) ^ 360)⁻¹ :=
    amort_denom_pos ((0.06:ℚ) / 12) (by norm_num) 360 (by norm_num)
  have hpi : (reportMetrics (withDefaults allCashRaw)).monthlyPI = JsVal.num 0 := by
    rw [reportMetrics_monthlyPI, reportMetrics_loanAmount,
      show (withDefaults allCashRaw).financing.rateAnnual = 0.06 from rfl,
      show (withDefaults allCashRaw).financing.termMonths = 360 from rfl,
      show (withDefaults allCashRaw).financing.downPct = 1 from rfl,
      jsDiv_num _ _ (ne_of_gt hD)]
    norm_num
  have hads : (reportMetrics (withDefaults allCashRaw)).annualDebtService = JsVal.num 0 := by
    rw [reportMetrics_annualDebtService, hpi]
    simp [JsVal.mulC]
  have hnoi : (reportMetrics (withDefaults allCashRaw)).noi = 10092 := by
    simp [withDefaults, allCashRaw, p6Raw, blankRaw, foldl_rent]
    norm_num
  refine ⟨hads, hnoi, ?_⟩
  rw [reportMetrics_dscr, hads, hnoi]
  norm_num [jsDivQV, jsDiv]

/-- Raw input giving the P3 amortization example through the pipeline:
purchase price 500000 with the defaulted 25 percent down payment yields a
loan amount of 375000 at the defaulted 7.7 percent annual rate over the
defaulted 360 months. -/
def p3Raw : RawInput := { blankRaw with purchasePrice := some 500000 }

/-- The exact monthly payment the code computes for the P3 example. -/
theorem p3_monthlyPI_closed_form :
    (reportMetrics (withDefaults p3Raw)).monthlyPI
      = JsVal.num ((500000 * (1 - 0.25) * (0.077 / 12))
          / (1 - ((1 + (0.077:ℚ) / 12) ^ 360)⁻¹)) := by
  have hD : (0:ℚ) < 1 - ((1 + (0.077:ℚ) / 12) ^ 360)⁻¹ :=
    amort_denom_pos ((0.077:ℚ) / 12) (by norm_num) 360 (by norm_num)
  rw [reportMetrics_monthlyPI, reportMetrics_loanAmount,
    show (withDefaults p3Raw).financing.rateAnnual = 0.077 from rfl,
    show (withDefaults p3Raw).financing.termMonths = 360 from rfl,
    show (withDefaults p3Raw).financing.downPct = 0.25 from rfl,
    show (withDefaults p3Raw).purchasePrice = 500000 from rfl,
    jsDiv_num _ _ (ne_of_gt hD)]

/-- C5 counterexample: for a loan amount of 375000 at 7.7 percent over 360
months the computed monthly payment is not within 0.01 of 2676.45. -/
theorem c5_payment_not_near_2676 :
    ¬ (reportMetrics (withDefaults p3Raw)).monthlyPI.within 2676.45 0.01 := by
  intro h
  rw [p3_monthlyPI_closed_form] at h
  simp only [JsVal.within] at h
  exact absurd h.1 (by norm_num)

/-- C5 amended: for a loan amount of 375000 at 7.7 percent over 360 months
the computed monthly payment is within 0.01 of 2673.60. -/
theorem c5_payment_near_2673_60 :
    (reportMetrics (withDefaults p3Raw)).monthlyPI.within 2673.60 0.01 := by
  rw [p3_monthlyPI_closed_form]
  simp only [JsVal.within]
  constructor
  · norm_num
  · norm_num

/-- Replaces only the vacancy rate of a defaulted input. -/
def Inputs.setVacancy (d : Inputs) (v : ℚ) : Inputs := { d with vacancyRate := v }

/-- C6: maintenance is based on gross scheduled rent, so it does not depend
on the vacancy rate at all, while management is based on effective gross
income, so raising the vacancy rate from 0 to one half halves it. -/
theorem c6_maintenance_base (d : Inputs) (v1 v2 : ℚ) :
    (reportMetrics (d.setVacancy v1)).maint = (reportMetrics (d.setVacancy v2)).maint ∧
    (reportMetrics (d.setVacancy (1/2))).mgmt = (reportMetrics (d.setVacancy 0)).mgmt / 2 := by
  constructor
  · rfl
  · simp only [reportMetrics_mgmt, reportMetrics_egi, reportMetrics_vacancy,
      reportMetrics_annualGSR, reportMetrics_monthlyRent, Inputs.setVacancy]
    ring

/-- C7: the normalization step `mapFromSchema` converts each whole-number
percentage of the upstream contract to a fraction by dividing by 100 and
substitutes the documented default fraction when the field is absent, and
converts a term in years to months, defaulting to 360 months. -/
theorem c7_percent_normalization (x : SchemaReport) :
    (∀ n : ℚ, x.vacancyPct = some n → (mapFromSchema x).vacancyRate = n / 100) ∧
    (x.vacancyPct = none → (mapFromSchema x).vacancyRate = 0.05) ∧
    (∀ n : ℚ, x.maintenancePctOfGrossRent = some n →
      (mapFromSchema x).maintPctOfGrossRent = n / 100) ∧
    (x.maintenancePctOfGrossRent = none → (mapFromSchema x).maintPctOfGrossRent = 0.08) ∧
    (∀ n : ℚ, x.managementPctOfEGI = some n → (mapFromSchema x).mgmtPctOfEGI = n / 100) ∧
    (x.managementPctOfEGI = none → (mapFromSchema x).mgmtPctOfEGI = 0.08) ∧
    (∀ n : ℚ, x.downPaymentPct = some n → (mapFromSchema x).financing.downPct = n / 100) ∧
    (x.downPaymentPct = none → (mapFromSchema x).financing.downPct = 0.25) ∧
    (∀ n : ℚ, x.rateAnnualPct = some n → (mapFromSchema x).financing.rateAnnual = n / 100) ∧
    (x.rateAnnualPct = none → (mapFromSchema x).financing.rateAnnual = 0.077) ∧
    (∀ y : ℕ, x.termYears = some y → (mapFromSchema x).financing.termMonths = 12 * y) ∧
    (x.termYears = none → (mapFromSchema x).financing.termMonths = 360) := by
  refine ⟨fun n h => ?_, fun h => ?_, fun n h => ?_, fun h => ?_, fun n h => ?_, fun h => ?_,
    fun n h => ?_, fun h => ?_, fun n h => ?_, fun h => ?_, fun y h => ?_, fun h => ?_⟩ <;>
    simp [mapFromSchema, pctToDec, yearsToMonths, h, Nat.mul_comm]

/-- A schema-shaped report carrying a numeric value in every field
`mapFromSchema` normalizes. -/
def sampleSchema : SchemaReport :=
  { subjectAddress := some "1 Main St"
    purchasePrice := some 400000
    closingCostPct := some 0.03
    pointsPct := some 0.01
    vacancyPct := some 5
    maintenancePctOfGrossRent := some 8
    managementPctOfEGI := some 8
    insuranceDp3Annual := some 1200
    taxesAnnual := some 3000
    hoaAnnual := some 0
    utilitiesLandlordPaidAnnual := some 0
    otherOpExAnnual := some 0
    units := some [{ name := "Unit A", modeledRentMonthly := some 1500 }]
    rentComps := some []
    downPaymentPct := some 25
    rateAnnualPct := some 7.7
    termYears := some 30 }

/-- A schema-shaped report with every normalized field absent. -/
def absentSchema : SchemaReport :=
  { subjectAddress := none
    purchasePrice := none
    closingCostPct := none
    pointsPct := none
    vacancyPct := none
    maintenancePctOfGrossRent := none
    managementPctOfEGI := none
    insuranceDp3Annual := none
    taxesAnnual := none
    hoaAnnual := none
    utilitiesLandlordPaidAnnual := none
    otherOpExAnnual := none
    units := none
    rentComps := none
    downPaymentPct := none
    rateAnnualPct := none
    termYears := none }

/-- C7 witness: the normalization theorem applied to a report with all
percentages present and to a report with all of them absent. -/
theorem c7_percent_normalization_witness :
    (mapFromSchema sampleSchema).vacancyRate = 5 / 100 ∧
    (mapFromSchema sampleSchema).maintPctOfGrossRent = 8 / 100 ∧
    (mapFromSchema sampleSchema).mgmtPctOfEGI = 8 / 100 ∧
    (mapFromSchema sampleSchema).financing.downPct = 25 / 100 ∧
    (mapFromSchema sampleSchema).financing.rateAnnual = 7.7 / 100 ∧
    (mapFromSchema sampleSchema).financing.termMonths = 12 * 30 ∧
    (mapFromSchema absentSchema).vacancyRate = 0.05 ∧
    (mapFromSchema absentSchema).maintPctOfGrossRent = 0.08 ∧
    (mapFromSchema absentSchema).mgmtPctOfEGI = 0.08 ∧
    (mapFromSchema absentSchema).financing.downPct = 0.25 ∧
    (mapFromSchema absentSchema).financing.rateAnnual = 0.077 ∧
    (mapFromSchema absentSchema).financing.termMonths = 360 :=
  ⟨(c7_percent_normalization sampleSchema).1 5 rfl,
    (c7_percent_normalization sampleSchema).2.2.1 8 rfl,
    (c7_percent_normalization sampleSchema).2.2.2.2.1 8 rfl,
    (c7_percent_normalization sampleSchema).2.2.2.2.2.2.1 25 rfl,
    (c7_percent_normalization sampleSchema).2.2.2.2.2.2.2.2.1 7.7 rfl,
    (c7_percent_normalization sampleSchema).2.2.2.2.2.2.2.2.2.2.1 30 rfl,
    (c7_percent_normalization absentSchema).2.1 rfl,
    (c7_percent_normalization absentSchema).2.2.2.1 rfl,
    (c7_percent_normalization absentSchema).2.2.2.2.2.1 rfl,
    (c7_percent_normalization absentSchema).2.2.2.2.2.2.2.1 rfl,
    (c7_percent_normalization absentSchema).2.2.2.2.2.2.2.2.2.1 rfl,
    (c7_percent_normalization absentSchema).2.2.2.2.2.2.2.2.2.2.2 rfl⟩

/-- C9: the calculator is a pure function of its input: two runs on
identical inputs yield identical metrics. The embedding is state-free
because the source reads its input and writes nothing. -/
theorem c9_deterministic (x y : Inputs) (h : x = y) :
    reportMetrics x = reportMetrics y := by
  rw [h]

/-- C9 witness: determinism applied to the defaulted P4 input. -/
theorem c9_deterministic_witness :
    reportMetrics (withDefaults p4Raw) = reportMetrics (withDefaults p4Raw) :=
  c9_deterministic (withDefaults p4Raw) (withDefaults p4Raw) rfl

/-- The JavaScript truthiness default `s || ""` absorbs a second
application. -/
theorem jsOrEmptyStr_some (s : String) : jsOrEmptyStr (some s) = s := by
  by_cases h : s = "" <;> simp [jsOrEmptyStr, h]

/-- The defaulted unit list is never empty. -/
theorem withDefaults_units_ne_nil (x : RawInput) : (withDefaults x).units ≠ [] := by
  simp only [withDefaults]
  cases x.units with
  | none => simp
  | some l => by_cases h : l = [] <;> simp [h]

/-- Re-running the defaulting step on a defaulted object whose unit list
is nonempty changes nothing: every field is already non-nullish. -/
theorem withDefaults_toRaw (d : Inputs) (hu : d.units ≠ []) :
    withDefaults d.toRaw = d := by
  simp only [withDefaults, Inputs.toRaw, Option.getD_some, Option.some_bind,
    jsOrEmptyStr_some, if_neg hu]

/-- C10: the defaulting step is idempotent: feeding its output back in
(every field now present, the unit list nonempty, the financing object
fully populated) fills nothing further. -/
theorem c10_withDefaults_idempotent (x : RawInput) :
    withDefaults (withDefaults x).toRaw = withDefaults x :=
  withDefaults_toRaw (withDefaults x) (withDefaults_units_ne_nil x)

/-- Inclusive numeric bounds of a JSON Schema number or integer node;
every bound appearing in the source schema is an integer. -/
structure NumBounds where
  lo : Option Int
  hi : Option Int
deriving DecidableEq, Repr

/-- Deep embedding of the JSON Schema dialect the source schema uses:
strings with optional minimum length, constant and format annotations,
numbers and integers with optional bounds, booleans, nullable wrappers
for type arrays of the form `[T, "null"]`, objects with an
additional-properties flag, required list and property list, and arrays
with an optional minimum item count. -/
inductive SchemaTy where
  | str (minLength : Option Nat) (constVal : Option String) (fmt : Option String)
  | num (b : NumBounds)
  | int (b : NumBounds)
  | boolean
  | nullOr (t : SchemaTy)
  | obj (additionalProperties : Bool) (required : List String)
      (props : List (String × SchemaTy))
  | arr (minItems : Option Nat) (items : SchemaTy)

/-- A plain string node with no annotations. -/
def strPlain : SchemaTy := .str none none none

/-- A number node bounded below by zero. -/
def numNonneg : SchemaTy := .num ⟨some 0, none⟩

/-- The `subject.geo` node. -/
def geoSchema : SchemaTy :=
  .obj false []
    [("lat", .nullOr (.num ⟨some (-90), some 90⟩)),
     ("lng", .nullOr (.num ⟨some (-180), some 180⟩))]

/-- The `reportMeta` node. -/
def reportMetaSchema : SchemaTy :=
  .obj false ["generatedAt", "targetCapPct", "currency", "locale"]
    [("generatedAt", .str none none (some "date-time")),
     ("targetCapPct", numNonneg),
     ("currency", .str (some 1) none none),
     ("locale", .str (some 2) none none)]

/-- The `subject` node. -/
def subjectSchema : SchemaTy :=
  .obj false ["address"]
    [("address", .str (some 3) none none),
     ("unitLabel", strPlain),
     ("city", strPlain),
     ("state", strPlain),
     ("zip", strPlain),
     ("county", strPlain),
     ("parcelId", strPlain),
     ("mlsId", strPlain),
     ("geo", geoSchema)]

/-- The `purchase` node. -/
def purchaseSchema : SchemaTy :=
  .obj false ["purchasePrice", "rehabBudget", "closingCostPct", "pointsPct", "totalCost"]
    [("purchasePrice", .nullOr numNonneg),
     ("rehabBudget", numNonneg),
     ("closingCostPct", numNonneg),
     ("pointsPct", numNonneg),
     ("totalCost", .nullOr numNonneg)]

/-- The `propertySnapshot.hoa` node. -/
def hoaSchema : SchemaTy :=
  .obj false ["hasHoa", "annual", "monthly", "name", "notes"]
    [("hasHoa", .boolean),
     ("annual", numNonneg),
     ("monthly", numNonneg),
     ("name", strPlain),
     ("notes", strPlain)]

/-- The `propertySnapshot.taxes` node. -/
def taxesSchema : SchemaTy :=
  .obj false ["annual", "year"]
    [("annual", .nullOr numNonneg),
     ("year", .nullOr (.int ⟨some 2000, some 2100⟩))]

/-- The `propertySnapshot.insurance` node. -/
def insuranceSchema : SchemaTy :=
  .obj false ["dp3Annual", "notes"]
    [("dp3Annual", .nullOr numNonneg),
     ("notes", strPlain)]

/-- The `propertySnapshot` node. -/
def propertySnapshotSchema : SchemaTy :=
  .obj false ["propertyType", "unitMix", "beds", "baths", "hoa", "taxes", "insurance",
      "recentUpdates"]
    [("propertyType", strPlain),
     ("unitMix", strPlain),
     ("beds", numNonneg),
     ("baths", numNonneg),
     ("livingSqft", .nullOr numNonneg),
     ("yearBuilt", .nullOr (.int ⟨some 1800, some 2100⟩)),
     ("lotSizeSqft", .nullOr numNonneg),
     ("hoa", hoaSchema),
     ("taxes", taxesSchema),
     ("insurance", insuranceSchema),
     ("recentUpdates", .arr none strPlain)]

/-- The item node of the `units` array. -/
def unitSchema : SchemaTy :=
  .obj false ["name", "beds", "baths", "sqft", "modeledRentMonthly", "leaseTermMonths",
      "notes"]
    [("name", strPlain),
     ("beds", numNonneg),
     ("baths", numNonneg),
     ("sqft", .nullOr numNonneg),
     ("modeledRentMonthly", .nullOr numNonneg),
     ("leaseTermMonths", .int ⟨some 1, none⟩),
     ("notes", strPlain)]

/-- The `rents` node. -/
def rentsSchema : SchemaTy :=
  .obj false ["benchmarkMedian", "qualityAdjustmentPct", "modeledMarketRentMonthly",
      "grossScheduledRentMonthly"]
    [("benchmarkMedian", .nullOr numNonneg),
     ("qualityAdjustmentPct", .num ⟨none, none⟩),
     ("modeledMarketRentMonthly", .nullOr numNonneg),
     ("grossScheduledRentMonthly", .nullOr numNonneg)]

/-- The item node of the `rentComps` array. -/
def rentCompSchema : SchemaTy :=
  .obj false ["address", "beds", "baths", "askingRent", "distanceMiles", "conditionNote"]
    [("address", .str (some 3) none none),
     ("beds", numNonneg),
     ("baths", numNonneg),
     ("askingRent", .nullOr numNonneg),
     ("distanceMiles", .nullOr numNonneg),
     ("conditionNote", strPlain)]

/-- The `operatingAssumptions` node. -/
def operatingAssumptionsSchema : SchemaTy :=
  .obj false ["vacancyPct", "maintenancePctOfGrossRent", "managementPctOfEGI",
      "selfManaged", "utilitiesLandlordPaidAnnual", "otherOpExAnnual"]
    [("vacancyPct", numNonneg),
     ("maintenancePctOfGrossRent", numNonneg),
     ("managementPctOfEGI", numNonneg),
     ("selfManaged", .boolean),
     ("utilitiesLandlordPaidAnnual", numNonneg),
     ("otherOpExAnnual", numNonneg)]

/-- The `financing` node. -/
def financingSchema : SchemaTy :=
  .obj false ["downPaymentPct", "rateAnnualPct", "termYears", "loanAmount", "monthlyPI",
      "annualDebtService"]
    [("downPaymentPct", numNonneg),
     ("rateAnnualPct", numNonneg),
     ("termYears", .int ⟨some 1, none⟩),
     ("loanAmount", .nullOr numNonneg),
     ("monthlyPI", .nullOr numNonneg),
     ("annualDebtService", .nullOr numNonneg)]

/-- The `totals` node. -/
def totalsSchema : SchemaTy :=
  .obj false ["egiAnnual", "opExAnnual", "noiAnnual", "capRatePct", "dscr",
      "cashFlowAnnual", "cashOnCashRoiPct", "onePercentRulePct"]
    [("egiAnnual", .nullOr numNonneg),
     ("opExAnnual", .nullOr numNonneg),
     ("noiAnnual", .nullOr numNonneg),
     ("capRatePct", .nullOr numNonneg),
     ("dscr", .nullOr numNonneg),
     ("cashFlowAnnual", .nullOr (.num ⟨some (-1000000000), none⟩)),
     ("cashOnCashRoiPct", .nullOr (.num ⟨none, none⟩)),
     ("onePercentRulePct", .nullOr numNonneg)]

/-- The shared shape of every sensitivity scenario. -/
def sensitivityCaseSchema : SchemaTy :=
  .obj false ["noiAnnual", "capRatePct", "dscr", "cashFlowAnnual"]
    [("noiAnnual", .nullOr (.num ⟨none, none⟩)),
     ("capRatePct", .nullOr (.num ⟨none, none⟩)),
     ("dscr", .nullOr (.num ⟨none, none⟩)),
     ("cashFlowAnnual", .nullOr (.num ⟨none, none⟩))]

/-- The `sensitivity` node: five named scenarios of identical shape. -/
def sensitivitySchema : SchemaTy :=
  .obj false ["rentMinus10", "baseCase", "rentPlus10", "opExMinus10", "opExPlus10"]
    [("rentMinus10", sensitivityCaseSchema),
     ("baseCase", sensitivityCaseSchema),
     ("rentPlus10", sensitivityCaseSchema),
     ("opExMinus10", sensitivityCaseSchema),
     ("opExPlus10", sensitivityCaseSchema)]

/-- The `negotiation.assumptions` node. -/
def negotiationAssumptionsSchema : SchemaTy :=
  .obj false ["closingCostPct", "pointsPct"]
    [("closingCostPct", numNonneg),
     ("pointsPct", numNonneg)]

/-- The `negotiation` node. -/
def negotiationSchema : SchemaTy :=
  .obj false ["targetCapPct", "maxPurchasePriceAtTargetCap", "assumptions"]
    [("targetCapPct", numNonneg),
     ("maxPurchasePriceAtTargetCap", .nullOr numNonneg),
     ("assumptions", negotiationAssumptionsSchema)]

/-- The `glossary` node. -/
def glossarySchema : SchemaTy :=
  .obj false ["EGI", "OpEx", "NOI", "Cap", "DSCR", "CoC"]
    [("EGI", strPlain),
     ("OpEx", strPlain),
     ("NOI", strPlain),
     ("Cap", strPlain),
     ("DSCR", strPlain),
     ("CoC", strPlain)]

/-- The structured-output schema constant of the serverless function:
`PROPERTY_REPORT_JSON_SCHEMA` for `property_investment_report_v1`. -/
def PROPERTY_REPORT_JSON_SCHEMA : SchemaTy :=
  .obj false
    ["version", "reportMeta", "subject", "purchase", "propertySnapshot", "units",
     "rents", "rentComps", "operatingAssumptions", "financing", "totals",
     "sensitivity", "negotiation", "glossary"]
    [("version", .str none (some "1.0") none),
     ("reportMeta", reportMetaSchema),
     ("subject", subjectSchema),
     ("purchase", purchaseSchema),
     ("propertySnapshot", propertySnapshotSchema),
     ("units", .arr (some 1) unitSchema),
     ("rents", rentsSchema),
     ("rentComps", .arr (some 5) rentCompSchema),
     ("operatingAssumptions", operatingAssumptionsSchema),
     ("financing", financingSchema),
     ("totals", totalsSchema),
     ("sensitivity", sensitivitySchema),
     ("negotiation", negotiationSchema),
     ("glossary", glossarySchema)]

mutual

/-- Holds when every object node in the tree sets
`additionalProperties: false`. -/
def SchemaTy.noExtra : SchemaTy → Bool
  | .str _ _ _ => true
  | .num _ => true
  | .int _ => true
  | .boolean => true
  | .nullOr t => t.noExtra
  | .obj ap _ ps => !ap && noExtraProps ps
  | .arr _ t => t.noExtra

/-- Extends `SchemaTy.noExtra` over a property list. -/
def noExtraProps : List (String × SchemaTy) → Bool
  | [] => true
  | (_, t) :: rest => t.noExtra && noExtraProps rest

end

/-- The required-key list of an object node. -/
def SchemaTy.requiredKeys : SchemaTy → List String
  | .obj _ req _ => req
  | _ => []

/-- The declared property keys of an object node. -/
def SchemaTy.propKeys : SchemaTy → List String
  | .obj _ _ ps => ps.map Prod.fst
  | _ => []

/-- Looks up the node declared for a property key. -/
def SchemaTy.prop (t : SchemaTy) (k : String) : Option SchemaTy :=
  match t with
  | .obj _ _ ps => ps.lookup k
  | _ => none

/-- C8: the report schema constant requires exactly the fourteen top-level
keys and declares exactly those properties, every object node in the tree
forbids additional properties, the unit list needs at least one entry and
the comparable list at least five, and the sensitivity node carries
exactly the five named scenarios, each sharing the one four-field
scenario shape. -/
theorem c8_schema_contract :
    PROPERTY_REPORT_JSON_SCHEMA.requiredKeys
      = ["version", "reportMeta", "subject", "purchase", "propertySnapshot", "units",
         "rents", "rentComps", "operatingAssumptions", "financing", "totals",
         "sensitivity", "negotiation", "glossary"] ∧
    PROPERTY_REPORT_JSON_SCHEMA.propKeys = PROPERTY_REPORT_JSON_SCHEMA.requiredKeys ∧
    PROPERTY_REPORT_JSON_SCHEMA.noExtra = true ∧
    PROPERTY_REPORT_JSON_SCHEMA.prop "units" = some (.arr (some 1) unitSchema) ∧
    PROPERTY_REPORT_JSON_SCHEMA.prop "rentComps" = some (.arr (some 5) rentCompSchema) ∧
    PROPERTY_REPORT_JSON_SCHEMA.prop "sensitivity" = some sensitivitySchema ∧
    sensitivitySchema.requiredKeys
      = ["rentMinus10", "baseCase", "rentPlus10", "opExMinus10", "opExPlus10"] ∧
    sensitivitySchema.prop "rentMinus10" = some sensitivityCaseSchema ∧
    sensitivitySchema.prop "baseCase" = some sensitivityCaseSchema ∧
    sensitivitySchema.prop "rentPlus10" = some sensitivityCaseSchema ∧
    sensitivitySchema.prop "opExMinus10" = some sensitivityCaseSchema ∧
    sensitivitySchema.prop "opExPlus10" = some sensitivityCaseSchema ∧
    sensitivityCaseSchema.requiredKeys
      = ["noiAnnual", "capRatePct", "dscr", "cashFlowAnnual"] ∧
    sensitivityCaseSchema.propKeys = sensitivityCaseSchema.requiredKeys := by
  refine ⟨rfl, rfl, ?_, ?_, ?_, ?_, rfl, ?_, ?_, ?_, ?_, ?_, rfl, rfl⟩ <;>
    simp [PROPERTY_REPORT_JSON_SCHEMA, SchemaTy.noExtra, noExtraProps, SchemaTy.prop,
      reportMetaSchema, subjectSchema, purchaseSchema, propertySnapshotSchema,
      hoaSchema, taxesSchema, insuranceSchema, geoSchema, unitSchema, rentsSchema,
      rentCompSchema, operatingAssumptionsSchema, financingSchema, totalsSchema,
      sensitivityCaseSchema, sensitivitySchema, negotiationSchema,
      negotiationAssumptionsSchema, glossarySchema, strPlain, numNonneg, List.lookup]

end PropertyReport
